import Mathlib

/-!
Verification development for the CNPJ resolution pipeline.

The development shallowly embeds the Python sources:
* `cnpj_api.py` (`CNPJDataFetcher`) in namespace `CNPJApi`,
* `scraper_cnpj.py` (`CNPJScraper.clean_cnpj`) in namespace `ScraperCNPJ`,
* `consulta_cnpj_massa.py` (`APILocalidades`, `ConsultorCNPJ`,
  `AnalisadorDadosEmpresa`) in namespace `Massa`,
* `localization_api.py` (`LocalizationAPI`) in namespace `LocAPI`.

Strings are Lean `String`s; Python `str.replace` with single-character
patterns, `str.upper`, `str.strip` and the substring operator `in` are
modelled by the helpers below.  The network is an explicit environment
mapping a request key to an HTTP outcome; each embedded operation that
performs I/O also returns the number of network requests it issued, and
mutable object state (the in-memory caches, the wall clock) is passed
explicitly.  In `cnpj_api.py` and in the locality directories every
exception path is caught locally (`except Exception` or equivalent) and
converted to `none` / a sentinel, so those embeddings return plain
values.  `ConsultorCNPJ.consultar_brasilapi` is the exception: its
handler catches only `requests.exceptions.RequestException`, so the
`AttributeError` raised by `data.get` on an HTTP-200 body that decodes
to non-object JSON escapes it — and, since neither `consultar_cnpj` nor
the `processar_lote` loop has a `try`, aborts the whole batch.  That
pipeline is therefore embedded in `Except PyExn`.
-/

/-- Python `s.replace(old, new)` for a single-character pattern `old`:
every occurrence of the character is replaced by the string `new`. -/
def pyReplaceChar (s : String) (old : Char) (new : String) : String :=
  String.mk (List.flatten (s.data.map (fun ch => if ch = old then new.data else [ch])))

/-- Characterwise list matching at the head (helper for the Python
substring operator). -/
def pfxAt : List Char → List Char → Bool
  | [], _ => true
  | _ :: _, [] => false
  | a :: as, b :: bs => a = b && pfxAt as bs

/-- Contiguous sublist test on character lists (helper for the Python
substring operator). -/
def subAt : List Char → List Char → Bool
  | n, [] => n.isEmpty
  | n, h :: t => pfxAt n (h :: t) || subAt n t

/-- Python `a in b` on strings: `a` occurs contiguously inside `b`. -/
def strIn (a b : String) : Bool :=
  subAt a.data b.data

/-- Python `s.upper()` (ASCII case mapping), working on the character
list so that it evaluates by kernel reduction. -/
def pyUpper (s : String) : String :=
  String.mk (s.data.map Char.toUpper)

/-- Python `s.strip()`: drops whitespace from both ends, working on the
character list so that it evaluates by kernel reduction. -/
def pyStrip (s : String) : String :=
  String.mk
    (((s.data.dropWhile (fun c => c.isWhitespace)).reverse.dropWhile
        (fun c => c.isWhitespace)).reverse)

/-- Python truthiness on strings: `s if s else d`. -/
def pyStrOr (s d : String) : String :=
  if s = "" then d else s

/-- Python `o if o else d` for an optional string. -/
def pyOptOr (o : Option String) (d : String) : String :=
  match o with
  | some s => pyStrOr s d
  | none => d

/-- The Python loop pattern
`for m in entries: if x in m or m in x: return m` — the bidirectional
substring scan used by `APILocalidades.normalizar_municipio` and by
`AnalisadorDadosEmpresa.identificar_regiao_metro`: returns the first
entry `m` with `x` a substring of `m` or `m` a substring of `x`. -/
def buscaSubstr (x : String) : List String → Option String
  | [] => none
  | m :: rest => if strIn x m || strIn m x then some m else buscaSubstr x rest

/-- An HTTP exchange outcome as seen by one `requests.get`/`post` call:
a status code with an optional parsed body (`none` when the body is not
parseable as the expected JSON shape), a timeout, or a transport-level
error. -/
inductive HttpResp (α : Type) where
  | success (status : Nat) (body : Option α)
  | timeout
  | netError
deriving DecidableEq

/-- A parsed JSON value (`response.json()`). -/
inductive Json where
  | str (s : String)
  | num (n : Int)
  | jbool (b : Bool)
  | jnull
  | arr (xs : List Json)
  | obj (fields : List (String × Json))

/-- Python `dict.get(key, default)` on a JSON object's field list. -/
def jsonGetD (fields : List (String × Json)) (key : String) (d : Json) : Json :=
  (fields.lookup key).getD d

/-- Python `dict.get(key)` (default `None`) on a JSON object's field list. -/
def jsonGet (fields : List (String × Json)) (key : String) : Option Json :=
  fields.lookup key

namespace CNPJApi

/-! Embedding of `cnpj_api.py` (`CNPJDataFetcher`). -/

/-- `CNPJDataFetcher._clean_cnpj`: removes the punctuation characters
`.`, `-`, `/` via three chained `str.replace` calls. -/
def clean_cnpj (cnpj : String) : String :=
  pyReplaceChar (pyReplaceChar (pyReplaceChar cnpj '.' "") '-' "") '/' ""

/-- `CNPJDataFetcher._format_cnpj`: when the cleaned identifier has
exactly 14 characters, inserts the `NN.NNN.NNN/NNNN-NN` punctuation;
otherwise returns the input unchanged. -/
def format_cnpj (cnpj : String) : String :=
  let clean := clean_cnpj cnpj
  if clean.length = 14 then
    String.mk (clean.data.take 2) ++ "." ++ String.mk ((clean.data.drop 2).take 3)
      ++ "." ++ String.mk ((clean.data.drop 5).take 3) ++ "/"
      ++ String.mk ((clean.data.drop 8).take 4) ++ "-"
      ++ String.mk ((clean.data.drop 12).take 2)
  else cnpj

/-- A resolved record: the Python result `dict`, kept as an ordered
key/value list exactly as the source builds it. -/
abbrev Dict := List (String × Json)

/-- The per-run cache `self.cache` of `CNPJDataFetcher`, keyed by the
cleaned identifier. -/
abbrev FetchCache := List (String × Dict)

/-- The network as seen by `CNPJDataFetcher`: the outcome of the GET on
each source's URL, keyed by the cleaned identifier interpolated into the
URL. -/
structure FetchEnv where
  cnpjs_dev : String → HttpResp Json
  moccasin : String → HttpResp Json

/-- `CNPJDataFetcher.fetch_from_cnpjs_dev`: on HTTP 200 with a JSON
object body, builds the record via `data.get` with the source's
defaults; on any other status, a timeout, an unparseable body (where
`response.json()` raises) or a non-object body (where `data.get`
raises) the exception handlers return `None`. -/
def fetch_from_cnpjs_dev (env : FetchEnv) (cnpj : String) : Option Dict :=
  match env.cnpjs_dev (clean_cnpj cnpj) with
  | .success 200 (some (Json.obj data)) =>
      some [("cnpj", Json.str (format_cnpj cnpj)),
            ("razao_social", jsonGetD data "nome" (Json.str "N/A")),
            ("nome_fantasia", jsonGetD data "nome_fantasia" (Json.str "N/A")),
            ("cidade", jsonGetD data "municipio" (Json.str "Nao informada")),
            ("uf", jsonGetD data "uf" (Json.str "Nao informada")),
            ("logradouro", jsonGetD data "logradouro" (Json.str "N/A")),
            ("numero", jsonGetD data "numero" (Json.str "N/A")),
            ("cep", jsonGetD data "cep" (Json.str "N/A")),
            ("status", Json.str "encontrado"),
            ("fonte", Json.str "cnpjs.dev")]
  | .success 200 (some _) => none
  | .success 200 none => none
  | .success _ _ => none
  | .timeout => none
  | .netError => none

/-- `CNPJDataFetcher.fetch_from_moccasin`: like the first source but the
fields live in nested `company`/`address` objects, read with
`data.get('company', {}).get(...)`; when `company` or `address` is
present but not an object, the nested `.get` raises and the handler
returns `None`. -/
def fetch_from_moccasin (env : FetchEnv) (cnpj : String) : Option Dict :=
  match env.moccasin (clean_cnpj cnpj) with
  | .success 200 (some (Json.obj data)) =>
      match jsonGetD data "company" (Json.obj []), jsonGetD data "address" (Json.obj []) with
      | Json.obj company, Json.obj address =>
          some [("cnpj", Json.str (format_cnpj cnpj)),
                ("razao_social", jsonGetD company "name" (Json.str "N/A")),
                ("nome_fantasia", jsonGetD company "alias" (Json.str "N/A")),
                ("cidade", jsonGetD address "city" (Json.str "Nao informada")),
                ("uf", jsonGetD address "state" (Json.str "Nao informada")),
                ("logradouro", jsonGetD address "street" (Json.str "N/A")),
                ("numero", jsonGetD address "number" (Json.str "N/A")),
                ("cep", jsonGetD address "zip_code" (Json.str "N/A")),
                ("status", Json.str "encontrado"),
                ("fonte", Json.str "moccasin")]
      | _, _ => none
  | .success 200 (some _) => none
  | .success 200 none => none
  | .success _ _ => none
  | .timeout => none
  | .netError => none

/-- The all-sentinel record synthesized by `fetch_cnpj_data` when both
sources fail. -/
def notFoundDict (cnpj : String) : Dict :=
  [("cnpj", Json.str (format_cnpj cnpj)),
   ("razao_social", Json.str "Nao encontrada"),
   ("nome_fantasia", Json.str "N/A"),
   ("cidade", Json.str "Nao encontrada"),
   ("uf", Json.str "Nao encontrada"),
   ("logradouro", Json.str "N/A"),
   ("numero", Json.str "N/A"),
   ("cep", Json.str "N/A"),
   ("status", Json.str "nao_encontrado"),
   ("fonte", Json.str "nenhuma")]

/-- `CNPJDataFetcher.fetch_cnpj_data`: consults the cache on the cleaned
identifier; on a miss tries `cnpjs.dev`, falls back to `moccasin`
(after `sleep(0.5)`), synthesizes the sentinel when both fail, stores
the result in the cache and returns it.  The third component counts the
network requests issued by the call.  The outer `except` branch of the
source (producing the all-`Erro` record) is unreachable here because
both source adapters catch every exception internally. -/
def fetch_cnpj_data (env : FetchEnv) (cache : FetchCache) (cnpj : String) :
    Dict × FetchCache × Nat :=
  let clean := clean_cnpj cnpj
  match cache.lookup clean with
  | some cached => (cached, cache, 0)
  | none =>
    match fetch_from_cnpjs_dev env cnpj with
    | some result => (result, (clean, result) :: cache, 1)
    | none =>
      match fetch_from_moccasin env cnpj with
      | some result => (result, (clean, result) :: cache, 2)
      | none => (notFoundDict cnpj, (clean, notFoundDict cnpj) :: cache, 2)

/-- Loop body of `CNPJDataFetcher.fetch_batch`: for each identifier, in
order, fetch the record, append it to `results`, and invoke
`progress_callback(idx + 1, total)`; the recorded pairs model the
callback invocations in order.  The `except` branch of the loop is
unreachable because `fetch_cnpj_data` never raises. -/
def fetch_batch_go (env : FetchEnv) (total : Nat) :
    Nat → FetchCache → List String → List Dict × List (Nat × Nat) × FetchCache
  | _, cache, [] => ([], [], cache)
  | idx, cache, cnpj :: rest =>
    let step := fetch_cnpj_data env cache cnpj
    let next := fetch_batch_go env total (idx + 1) step.2.1 rest
    (step.1 :: next.1, (idx + 1, total) :: next.2.1, next.2.2)

/-- `CNPJDataFetcher.fetch_batch` over a list of identifiers. -/
def fetch_batch (env : FetchEnv) (cache : FetchCache) (l : List String) :
    List Dict × List (Nat × Nat) × FetchCache :=
  fetch_batch_go env l.length 0 cache l

/-- The fetcher cache state after batch-processing a list of
identifiers (used to speak about intermediate states of `fetch_batch`). -/
def foldCache (env : FetchEnv) (cache : FetchCache) (l : List String) : FetchCache :=
  l.foldl (fun c cnpj => (fetch_cnpj_data env c cnpj).2.1) cache

/-- The list of keys of a record, in order. -/
def dictKeys (d : Dict) : List String :=
  d.map Prod.fst

/-- The ten keys every record built by `cnpj_api.py` carries, in source
order. -/
def canonKeys : List String :=
  ["cnpj", "razao_social", "nome_fantasia", "cidade", "uf",
   "logradouro", "numero", "cep", "status", "fonte"]

/-- Cache well-formedness: every cached record has the canonical key
shape (true of every record the fetcher ever stores). -/
def WFCache (cache : FetchCache) : Prop :=
  ∀ p ∈ cache, dictKeys p.2 = canonKeys

end CNPJApi

namespace ScraperCNPJ

/-! Embedding of `scraper_cnpj.py` (`CNPJScraper`). -/

/-- `CNPJScraper.clean_cnpj` as written in the source: it removes `.`
but then replaces `-` by `/` (and never removes `/`), although its doc
string says it removes the CNPJ formatting. -/
def clean_cnpj (cnpj : String) : String :=
  pyReplaceChar (pyReplaceChar cnpj '.' "") '-' "/"

end ScraperCNPJ

namespace Massa

/-! Embedding of `consulta_cnpj_massa.py` (`APILocalidades`,
`ConsultorCNPJ`, `AnalisadorDadosEmpresa`).

JSON payloads here are modelled as string-valued objects (association
lists `String × String`) and arrays thereof: the pipeline reads every
payload field as free text (the spec's Company Record declares all
fields as text), so the embedding types them as `String`. -/

/-- The IBGE locality endpoint: per region code, the outcome of the GET
on `/estados/{uf}/municipios`.  The body is a JSON array of objects,
each expected to carry a `nome` field. -/
abbrev LocEnv := String → HttpResp (List (List (String × String)))

/-- `APILocalidades.cache_municipios`, keyed by region code. -/
abbrev LocCache := List (String × List String)

/-- The municipality list extracted from one IBGE response by
`obter_municipios_por_uf`: on HTTP 200 with a parseable array body,
`[m['nome'].upper() for m in response.json()]`; `none` when the status
differs, the body is unparseable, or some element lacks `nome` (the
list comprehension raises and the handler takes over). -/
def municipiosFromResp (r : HttpResp (List (List (String × String)))) :
    Option (List String) :=
  match r with
  | .success 200 (some items) =>
      (items.mapM (fun (m : List (String × String)) => m.lookup "nome")).map
        (fun l => l.map pyUpper)
  | .success 200 none => none
  | .success _ _ => none
  | .timeout => none
  | .netError => none

/-- `APILocalidades.obter_municipios_por_uf`: returns the cached list
when present; otherwise issues one GET (counted by the third
component), caches and returns the parsed list on success, and returns
`[]` without caching on any failure. -/
def obter_municipios_por_uf (env : LocEnv) (cache : LocCache) (uf : String) :
    List String × LocCache × Nat :=
  match cache.lookup uf with
  | some ms => (ms, cache, 0)
  | none =>
    match municipiosFromResp (env uf) with
    | some ms => (ms, (uf, ms) :: cache, 1)
    | none => ([], cache, 1)

/-- `APILocalidades.validar_municipio`: exact membership of the
upper-cased input in the fetched list. -/
def validar_municipio (env : LocEnv) (cache : LocCache) (municipio uf : String) :
    Bool × LocCache :=
  let r := obter_municipios_por_uf env cache uf
  (r.1.contains (pyUpper municipio), r.2.1)

/-- `APILocalidades.normalizar_municipio`: upper-cases the input;
returns it when it occurs verbatim in the fetched list, otherwise the
first entry related to it by the bidirectional substring scan, else
`None`. -/
def normalizar_municipio (env : LocEnv) (cache : LocCache) (municipio uf : String) :
    Option String × LocCache :=
  let r := obter_municipios_por_uf env cache uf
  let mu := pyUpper municipio
  if r.1.contains mu then (some mu, r.2.1)
  else (buscaSubstr mu r.1, r.2.1)

/-- A resolved record as built by `ConsultorCNPJ`; `data_consulta`
(`datetime.now().isoformat()`) is modelled as the tick of an explicit
clock. -/
structure RegistroC where
  cnpj : String
  razao_social : String
  nome_fantasia : String
  municipio : String
  uf : String
  logradouro : String
  numero : String
  complemento : String
  bairro : String
  cep : String
  cnae : String
  cnae_codigo : String
  natureza_juridica : String
  status : String
  data_situacao : String
  data_consulta : Nat
deriving DecidableEq

/-- A JSON-decodable Brasil API response body: either a JSON object
(with string fields, the shape the pipeline reads) or some other JSON
value (array, string, number, null…) on which `data.get` raises
`AttributeError`.  A body that does not decode at all is the `none` of
the surrounding `HttpResp`. -/
inductive BrasilJson where
  | obj (fields : List (String × String))
  | nonObj

/-- A Python exception escaping a function that does not catch it. -/
inductive PyExn where
  | attributeError
deriving DecidableEq

/-- Brasil API endpoint: per cleaned identifier, the outcome of the GET
on `/api/cnpj/v1/{cnpj}`. -/
abbrev BrasilEnv := String → HttpResp BrasilJson

/-- Mutable state of one `ConsultorCNPJ` (with its embedded
`APILocalidades`): the identifier cache, the wall clock, and the
locality cache. -/
structure CState where
  cache : List (String × RegistroC)
  clock : Nat
  loc : LocCache

/-- Python `data.get(key, default)` on a string-valued object. -/
def sGetD (kvs : List (String × String)) (key d : String) : String :=
  (kvs.lookup key).getD d

/-- `ConsultorCNPJ` cleans identifiers with
`cnpj.replace('.', '').replace('/', '').replace('-', '')`. -/
def cnpj_limpo (cnpj : String) : String :=
  pyReplaceChar (pyReplaceChar (pyReplaceChar cnpj '.' "") '/' "") '-' ""

/-- The `resultado` dict `consultar_brasilapi` builds from a successful
response body; `data_consulta` (`datetime.now().isoformat()`) is the
current clock tick. -/
def registroFrom (cnpj : String) (data : List (String × String)) (clock : Nat) :
    RegistroC :=
  { cnpj := cnpj,
    razao_social := sGetD data "razao_social" "N/A",
    nome_fantasia := sGetD data "nome_fantasia" "N/A",
    municipio := sGetD data "municipio" "N/A",
    uf := sGetD data "uf" "N/A",
    logradouro := sGetD data "logradouro" "N/A",
    numero := sGetD data "numero" "N/A",
    complemento := sGetD data "complemento" "N/A",
    bairro := sGetD data "bairro" "N/A",
    cep := sGetD data "cep" "N/A",
    cnae := sGetD data "cnae_fiscal_descricao" "N/A",
    cnae_codigo := sGetD data "cnae_fiscal" "N/A",
    natureza_juridica := sGetD data "natureza_juridica_descricao" "N/A",
    status := if data.lookup "status" = some "ATIVA" then "ATIVO" else "INATIVO",
    data_situacao := sGetD data "data_situacao_cadastral" "N/A",
    data_consulta := clock }

/-- `ConsultorCNPJ.consultar_brasilapi`: returns the cached record for
the cleaned identifier when present (no request); otherwise issues one
GET, and on HTTP 200 with an object body builds the record, caches and
returns it.  The `except` clause catches ONLY
`requests.exceptions.RequestException`: a timeout, transport error, or
undecodable body (`response.json()` raises `JSONDecodeError`, a
`RequestException` in current `requests`) is caught and yields `None`
with nothing cached, and a non-200 status simply falls through to
`return None`; but an HTTP 200 whose body decodes to non-object JSON
makes `data.get` raise `AttributeError`, which is NOT a
`RequestException` and ESCAPES this function — modelled as
`Except.error`. -/
def consultar_brasilapi (env : BrasilEnv) (st : CState) (cnpj : String) :
    Except PyExn (Option RegistroC × CState × Nat) :=
  match st.cache.lookup (cnpj_limpo cnpj) with
  | some r => .ok (some r, st, 0)
  | none =>
    match env (cnpj_limpo cnpj) with
    | .success 200 (some (BrasilJson.obj data)) =>
        .ok (some (registroFrom cnpj data st.clock),
         { st with
            cache := (cnpj_limpo cnpj, registroFrom cnpj data st.clock) :: st.cache
            clock := st.clock + 1 }, 1)
    | .success 200 (some BrasilJson.nonObj) => .error PyExn.attributeError
    | .success 200 none => .ok (none, st, 1)
    | .success _ _ => .ok (none, st, 1)
    | .timeout => .ok (none, st, 1)
    | .netError => .ok (none, st, 1)

/-- The sentinel record `consultar_cnpj` synthesizes when the API
yields nothing.  Note the source does NOT store it in the cache. -/
def erroConsulta (cnpj : String) (clock : Nat) : RegistroC :=
  { cnpj := cnpj, razao_social := "N/A", nome_fantasia := "N/A",
    municipio := "N/A", uf := "N/A", logradouro := "N/A", numero := "N/A",
    complemento := "N/A", bairro := "N/A", cep := "N/A", cnae := "N/A",
    cnae_codigo := "N/A", natureza_juridica := "N/A",
    status := "ERRO_CONSULTA", data_situacao := "N/A",
    data_consulta := clock }

/-- `ConsultorCNPJ.consultar_cnpj`: Brasil API with sentinel fallback.
It has no `try` of its own, so the `AttributeError` escaping
`consultar_brasilapi` propagates through it. -/
def consultar_cnpj (env : BrasilEnv) (st : CState) (cnpj : String) :
    Except PyExn (RegistroC × CState × Nat) :=
  match consultar_brasilapi env st cnpj with
  | .error e => .error e
  | .ok (some r, st1, n) => .ok (r, st1, n)
  | .ok (none, st1, n) =>
      .ok (erroConsulta cnpj st1.clock, { st1 with clock := st1.clock + 1 }, n)

/-- The 27 valid region codes hard-coded in
`ConsultorCNPJ.validar_localizacao`. -/
def ufsValidas : List String :=
  ["AC", "AL", "AP", "AM", "BA", "CE", "DF", "ES", "GO", "MA",
   "MT", "MS", "MG", "PA", "PB", "PR", "PE", "PI", "RJ", "RN",
   "RS", "RO", "RR", "SC", "SP", "SE", "TO"]

/-- `ConsultorCNPJ.validar_localizacao`: rejects unknown region codes
before any fetch; otherwise normalizes the municipality, returning
`(True, normalized)` when the normalization is truthy and
`(False, municipio)` otherwise. -/
def validar_localizacao (lenv : LocEnv) (st : CState) (municipio uf : String) :
    (Bool × String) × CState :=
  if ufsValidas.contains uf then
    let r := normalizar_municipio lenv st.loc municipio uf
    let st1 := { st with loc := r.2 }
    match r.1 with
    | some m => if m = "" then ((false, municipio), st1) else ((true, m), st1)
    | none => ((false, municipio), st1)
  else ((false, "UF_INVALIDO"), st)

/-- One metropolitan-region entry of
`AnalisadorDadosEmpresa._mapear_regioes_metropolitanas`. -/
structure RegiaoMetro where
  uf : String
  municipios : List String

/-- `AnalisadorDadosEmpresa._mapear_regioes_metropolitanas`, in source
(dict insertion) order. -/
def regioes_metropo : List (String × RegiaoMetro) :=
  [("RM_SAOPAULO",
    { uf := "SP",
      municipios := ["SAO PAULO", "GUARULHOS", "CAMPINAS", "SANTO ANDRE",
                     "SÃO BERNARDO DO CAMPO", "DIADEMA", "MAUA", "OSASCO"] }),
   ("RM_RIO",
    { uf := "RJ",
      municipios := ["RIO DE JANEIRO", "NITEROI", "SAO GONCALO", "DUQUE DE CAXIAS",
                     "NOVA IGUACU", "SÃO JOÃO DE MERITI", "NILÓPOLIS"] }),
   ("RM_BELO_HORIZONTE",
    { uf := "MG",
      municipios := ["BELO HORIZONTE", "CONTAGEM", "BETIM", "SABARA",
                     "NOVA LIMA", "BRUMADINHO", "RIBEIRÃO DAS NEVES"] }),
   ("RM_BRASILIA",
    { uf := "DF",
      municipios := ["BRASILIA", "TAGUATINGA", "CEILANDIA", "GUARA"] }),
   ("RM_CURITIBA",
    { uf := "PR",
      municipios := ["CURITIBA", "ARAUCARIA", "CAMPO LARGO", "COLOMBO", "PINHAIS"] }),
   ("RM_PORTO_ALEGRE",
    { uf := "RS",
      municipios := ["PORTO ALEGRE", "VIAMAO", "CANOAS", "GRAVATAÍ", "ALVORADA"] }),
   ("RM_SALVADOR",
    { uf := "BA",
      municipios := ["SALVADOR", "LAURO DE FREITAS", "CAMAÇARI", "SIMÕES FILHO"] }),
   ("RM_RECIFE",
    { uf := "PE",
      municipios := ["RECIFE", "JABOATAO DOS GUARARAPES", "OLINDA", "PAULISTA"] }),
   ("RM_FORTALEZA",
    { uf := "CE",
      municipios := ["FORTALEZA", "MARACANAÚ", "CAUCAIA", "AQUIRAZ"] }),
   ("RM_MANAUS",
    { uf := "AM",
      municipios := ["MANAUS", "ITACOATIARA", "IRANDUBA"] })]

/-- Outer loop of `identificar_regiao_metro` over the region table:
for the first table entry whose `uf` matches and whose member list has
a bidirectional substring match, return the region key. -/
def acheRegiao (mu uf : String) : List (String × RegiaoMetro) → Option String
  | [] => none
  | (nome, dados) :: rest =>
      if dados.uf = uf then
        match buscaSubstr mu dados.municipios with
        | some _ => some nome
        | none => acheRegiao mu uf rest
      else acheRegiao mu uf rest

/-- `AnalisadorDadosEmpresa.identificar_regiao_metro`: upper-cases the
input and scans the static region table. -/
def identificar_regiao_metro (municipio uf : String) : Option String :=
  acheRegiao (pyUpper municipio) uf regioes_metropo

/-- One input row of `processar_lote`, with the column accesses
(`row[coluna_cnpj]`, `row.get(coluna_uf, 'N/A')`,
`row.get(coluna_municipio, 'N/A')`, `row.get('Empresa', 'N/A')`)
already resolved to strings. -/
structure Linha where
  cnpj : String
  uf_base : String
  municipio_base : String
  empresa : String

/-- The assembled output row of `processar_lote`; `Data_Consulta` is
the clock tick of the underlying record. -/
structure Resultado where
  CNPJ : String
  Empresa_Original : String
  UF_Origem : String
  Municipio_Origem : String
  Razao_Social : String
  Nome_Fantasia : String
  Municipio_API : String
  UF_API : String
  Validacao_Municipio : String
  Regiao_Metropolitana : String
  Match_UF : String
  Match_Municipio : String
  Logradouro : String
  Numero : String
  Bairro : String
  CEP : String
  CNAE : String
  CNAE_Codigo : String
  Natureza_Juridica : String
  Status : String
  Data_Situacao : String
  Data_Consulta : Nat
deriving DecidableEq

/-- One iteration of the `processar_lote` loop body.  The loop has no
`try`, so an exception escaping `consultar_cnpj` propagates
(`Except.error`). -/
def processar_linha (cenv : BrasilEnv) (lenv : LocEnv) (st : CState) (row : Linha) :
    Except PyExn (Resultado × CState) :=
  let cnpj := pyStrip row.cnpj
  let uf_base := pyStrip row.uf_base
  let municipio_base := pyStrip row.municipio_base
  match consultar_cnpj cenv st cnpj with
  | .error e => .error e
  | .ok c =>
  let dados := c.1
  let st1 := c.2.1
  let v1 := validar_localizacao lenv st1 dados.municipio dados.uf
  let validacao_uf := v1.1.1
  let st2 := v1.2
  let uf_api := dados.uf
  let pass2 :=
    if validacao_uf && !(dados.municipio == "N/A") then
      let v2 := validar_localizacao lenv st2 dados.municipio uf_api
      ((v2.1.1, pyStrOr v2.1.2 dados.municipio), v2.2)
    else ((false, dados.municipio), st2)
  let validacao_municipio := pass2.1.1
  let municipio_api := pass2.1.2
  let st3 := pass2.2
  let regiao_metro :=
    if validacao_municipio then identificar_regiao_metro municipio_api uf_api else none
  let resultado : Resultado :=
  { CNPJ := cnpj,
     Empresa_Original := row.empresa,
     UF_Origem := uf_base,
     Municipio_Origem := municipio_base,
     Razao_Social := dados.razao_social,
     Nome_Fantasia := dados.nome_fantasia,
     Municipio_API := municipio_api,
     UF_API := uf_api,
     Validacao_Municipio := if validacao_municipio then "SIM" else "NAO",
     Regiao_Metropolitana := pyOptOr regiao_metro "N/A",
     Match_UF := if uf_base = uf_api then "SIM" else "NAO",
     Match_Municipio :=
       if strIn (pyUpper municipio_base) (pyUpper municipio_api) then "SIM" else "NAO",
     Logradouro := dados.logradouro,
     Numero := dados.numero,
     Bairro := dados.bairro,
     CEP := dados.cep,
     CNAE := dados.cnae,
     CNAE_Codigo := dados.cnae_codigo,
     Natureza_Juridica := dados.natureza_juridica,
     Status := dados.status,
     Data_Situacao := dados.data_situacao,
     Data_Consulta := dados.data_consulta }
  Except.ok (resultado, st3)

/-- `AnalisadorDadosEmpresa.processar_lote`: drives `processar_linha`
over the rows in order, threading the consultant's state, and appends
exactly one `Resultado` per row.  The loop and the whole function have
no `try`: an exception raised inside one row's processing aborts the
entire batch, returning no rows at all (`Except.error`). -/
def processar_lote (cenv : BrasilEnv) (lenv : LocEnv) (st : CState) :
    List Linha → Except PyExn (List Resultado × CState)
  | [] => .ok ([], st)
  | row :: rest =>
    match processar_linha cenv lenv st row with
    | .error e => .error e
    | .ok r =>
      match processar_lote cenv lenv r.2 rest with
      | .error e => .error e
      | .ok next => .ok (r.1 :: next.1, next.2)

end Massa

namespace LocAPI

/-! Embedding of `localization_api.py` (`LocalizationAPI`). -/

/-- One metropolitan-region definition of
`LocalizationAPI._init_metropolitan_regions`: display name plus member
city list. -/
structure MetroRegion where
  name : String
  cities : List String

/-- `LocalizationAPI._init_metropolitan_regions`, keyed by region code,
in source order. -/
def metropolitan_regions : List (String × MetroRegion) :=
  [("SP",
    { name := "RMSP - Regiao Metropolitana de Sao Paulo",
      cities := ["Sao Paulo", "Guarulhos", "Campinas", "Santos", "Sorocaba",
                 "Osasco", "Santo Andre", "Sao Bernardo do Campo", "Sao Caetano do Sul",
                 "Diadema", "Mogi das Cruzes", "Suzano", "Ribeirao Pires",
                 "Rio Grande da Serra", "Embu-Guacu", "Embu", "Itapecerica da Serra",
                 "Juquitiba", "Vargem Grande Paulista", "Cotia", "Itapevi",
                 "Jandira", "Pirapora do Bom Jesus", "Santana de Parnaiba",
                 "Cajamar", "Cabreuva", "Itu", "Salto", "Mairinque",
                 "Aracariguama", "Piedade", "Tapiratiba", "Ipeuna"] }),
   ("RJ",
    { name := "RMRJ - Regiao Metropolitana do Rio de Janeiro",
      cities := ["Rio de Janeiro", "Niteroi", "Sao Goncalo", "Duque de Caxias",
                 "Nova Iguacu", "Sao Joao de Meriti", "Nillopolis", "Mesquita",
                 "Magé", "Mangaratiba", "Itaguai", "Seropedica",
                 "Japeri", "Marica", "Cachoeiras de Macacu", "Guapimirim",
                 "Tanguá", "Sao Goncalo"] }),
   ("MG",
    { name := "RMBH - Regiao Metropolitana de Belo Horizonte",
      cities := ["Belo Horizonte", "Contagem", "Betim", "Ribeirão das Neves",
                 "Santa Luzia", "Vespasiano", "Sarzedo", "Sete Lagoas",
                 "Divinopolis", "Conselheiro Lafaiete", "Itabira"] }),
   ("BA",
    { name := "RMSB - Regiao Metropolitana de Salvador",
      cities := ["Salvador", "Camaçari", "Lauro de Freitas", "Simoes Filho",
                 "Dias d\x27Avila", "Mata de Sao Joao", "Pojuca"] }),
   ("PE",
    { name := "RMR - Regiao Metropolitana do Recife",
      cities := ["Recife", "Jaboatao dos Guararapes", "Camaragibe", "Olinda",
                 "Paulista", "Itapissuma", "Igarassu", "Araçoiaba",
                 "Moreno", "Cabo de Santo Agostinho"] }),
   ("SC",
    { name := "RMGV - Regiao Metropolitana do Vale do Itajai",
      cities := ["Blumenau", "Brusque", "Gaspar", "Botuverá", "Guabiruba",
                 "Indaial", "Pomerode", "Rodeio", "Timbó"] }),
   ("RS",
    { name := "RMPA - Regiao Metropolitana de Porto Alegre",
      cities := ["Porto Alegre", "Viamao", "Alvorada", "Gravataí", "Cachoeirinha",
                 "Canoas", "Esteio", "Sapucaia do Sul", "São Leopoldo",
                 "Novo Hamburgo", "Paracambi"] }),
   ("PR",
    { name := "RMC - Regiao Metropolitana de Curitiba",
      cities := ["Curitiba", "Sao Jose dos Pinhais", "Almirante Tamandaré",
                 "Araçatuba", "Araucária", "Bocaiuva do Sul", "Campina Grande do Sul",
                 "Colombo", "Contenda", "Fazenda Rio Grande", "Itaperuçu",
                 "Mandirituba", "Piraquara", "Quatro Barras", "Rio Branco do Sul",
                 "Tunas do Paraná"] })]

/-- The city list extracted from one IBGE response by
`get_cities_by_uf`: `raise_for_status` raises on any status `≥ 400`;
otherwise `[city['nome'] for city in response.json()]`, with every
raised exception caught by the handler (yielding `none` here). -/
def citiesFromResp (r : HttpResp (List (List (String × String)))) :
    Option (List String) :=
  match r with
  | .success status body =>
      if status < 400 then
        match body with
        | some items => items.mapM (fun (m : List (String × String)) => m.lookup "nome")
        | none => none
      else none
  | .timeout => none
  | .netError => none

/-- `LocalizationAPI.get_cities_by_uf`: cached list when present;
otherwise one GET (counted), caching only on success and returning `[]`
without caching on any failure. -/
def get_cities_by_uf (env : Massa.LocEnv) (cache : Massa.LocCache) (uf : String) :
    List String × Massa.LocCache × Nat :=
  match cache.lookup uf with
  | some cs => (cs, cache, 0)
  | none =>
    match citiesFromResp (env uf) with
    | some cs => (cs, (uf, cs) :: cache, 1)
    | none => ([], cache, 1)

/-- `LocalizationAPI.is_metropolitan_area`: looks the region code up in
the static table; when present, tests EXACT membership of the
upper-cased, stripped city name in the upper-cased, stripped member
list, returning `(True, region name)` on membership and
`(False, None)` otherwise. -/
def is_metropolitan_area (uf city : String) : Bool × Option String :=
  match metropolitan_regions.lookup uf with
  | none => (false, none)
  | some region =>
    let cities_normalized := region.cities.map (fun c => pyStrip (pyUpper c))
    let city_normalized := pyStrip (pyUpper city)
    if cities_normalized.contains city_normalized then (true, some region.name)
    else (false, none)

/-- Modelled from the spec (§4.4): `is_member` as the spec words it —
after the table lookup it performs the case-insensitive BIDIRECTIONAL
SUBSTRING match of §4.2 against the member list.  Used only to compare
the spec's wording with `is_metropolitan_area` as implemented. -/
def is_member_spec (uf city : String) : Bool × Option String :=
  match metropolitan_regions.lookup uf with
  | none => (false, none)
  | some region =>
    match buscaSubstr (pyStrip (pyUpper city)) (region.cities.map (fun c => pyStrip (pyUpper c))) with
    | some _ => (true, some region.name)
    | none => (false, none)

end LocAPI

/-! Basic lemmas about the string helpers. -/

theorem pyReplaceChar_nil (old : Char) (new : String) :
    pyReplaceChar (String.mk []) old new = String.mk [] := by
  simp [pyReplaceChar]

theorem pyReplaceChar_append (s t : String) (old : Char) (new : String) :
    pyReplaceChar (s ++ t) old new = pyReplaceChar s old new ++ pyReplaceChar t old new := by
  apply String.ext
  simp [pyReplaceChar, String.data_append]

/-- Replacing a character by the empty string is filtering it out. -/
theorem pyReplaceChar_empty_eq_filter (s : String) (old : Char) :
    pyReplaceChar s old "" = String.mk (s.data.filter (fun ch => ch ≠ old)) := by
  apply String.ext
  simp only [pyReplaceChar]
  induction s.data with
  | nil => simp
  | cons h t ih =>
    by_cases hh : h = old <;> simp [hh, ih]

/-- On a string without the three punctuation characters, `clean_cnpj`
of `cnpj_api.py` is the identity. -/
theorem clean_cnpj_of_no_punct (s : String)
    (h : ∀ ch ∈ s.data, ch ≠ '.' ∧ ch ≠ '-' ∧ ch ≠ '/') :
    CNPJApi.clean_cnpj s = s := by
  have hfilter : ∀ (c : Char) (t : String), (∀ ch ∈ t.data, ch ≠ c) →
      pyReplaceChar t c "" = t := by
    intro c t ht
    rw [pyReplaceChar_empty_eq_filter]
    apply String.ext
    simp only []
    exact List.filter_eq_self.mpr (fun a ha => by simpa using ht a ha)
  unfold CNPJApi.clean_cnpj
  rw [hfilter '.' s (fun ch hch => (h ch hch).1),
      hfilter '-' s (fun ch hch => (h ch hch).2.1),
      hfilter '/' s (fun ch hch => (h ch hch).2.2)]

theorem pfxAt_self (l : List Char) : pfxAt l l = true := by
  induction l with
  | nil => rfl
  | cons h t ih => simp [pfxAt, ih]

theorem strIn_self (a : String) : strIn a a = true := by
  unfold strIn
  cases hd : a.data with
  | nil => rfl
  | cons h t => simp [subAt, pfxAt_self]

theorem strIn_empty_left (b : String) : strIn "" b = true := by
  show subAt [] b.data = true
  cases b.data with
  | nil => rfl
  | cons h t => simp [subAt, pfxAt]

theorem buscaSubstr_some (x m : String) (l : List String)
    (h : buscaSubstr x l = some m) :
    m ∈ l ∧ (strIn x m || strIn m x) = true := by
  induction l with
  | nil => simp [buscaSubstr] at h
  | cons a t ih =>
    by_cases hc : (strIn x a || strIn a x) = true
    · rw [buscaSubstr, if_pos hc] at h
      obtain rfl : a = m := Option.some.inj h
      exact ⟨List.mem_cons_self _ _, hc⟩
    · rw [buscaSubstr, if_neg hc] at h
      obtain ⟨hm, hp⟩ := ih h
      exact ⟨List.mem_cons_of_mem a hm, hp⟩

theorem buscaSubstr_eq_none_iff (x : String) (l : List String) :
    buscaSubstr x l = none ↔ ∀ m ∈ l, strIn x m = false ∧ strIn m x = false := by
  induction l with
  | nil => simp [buscaSubstr]
  | cons a t ih =>
    by_cases hc : (strIn x a || strIn a x) = true
    · rw [buscaSubstr, if_pos hc]
      simp only [Bool.or_eq_true] at hc
      constructor
      · intro h; cases h
      · intro h
        obtain ⟨h1, h2⟩ := h a (List.mem_cons_self a t)
        rcases hc with hc | hc
        · rw [h1] at hc; cases hc
        · rw [h2] at hc; cases hc
    · rw [buscaSubstr, if_neg hc]
      rw [ih]
      simp only [Bool.or_eq_true, not_or] at hc
      constructor
      · intro h m hm
        rcases List.mem_cons.mp hm with rfl | hm
        · exact ⟨by simpa using hc.1, by simpa using hc.2⟩
        · exact h m hm
      · intro h m hm
        exact h m (List.mem_cons_of_mem a hm)

theorem buscaSubstr_head_of_empty (m : String) (t : List String) :
    buscaSubstr "" (m :: t) = some m := by
  rw [buscaSubstr, if_pos]
  simp [strIn_empty_left]

theorem clean_cnpj_append (s t : String) :
    CNPJApi.clean_cnpj (s ++ t) = CNPJApi.clean_cnpj s ++ CNPJApi.clean_cnpj t := by
  unfold CNPJApi.clean_cnpj
  rw [pyReplaceChar_append, pyReplaceChar_append, pyReplaceChar_append]

/-- Regrouping the five display segments of a 14-character list yields
the list back. -/
theorem take_drop_reassemble (l : List Char) (hl : l.length = 14) :
    l.take 2 ++ ((l.drop 2).take 3 ++ ((l.drop 5).take 3
      ++ ((l.drop 8).take 4 ++ (l.drop 12).take 2))) = l := by
  have e12 : (l.drop 12).take 2 = l.drop 12 :=
    List.take_of_length_le (by simp [hl])
  have h8 : (l.drop 8).drop 4 = l.drop 12 := by rw [List.drop_drop]
  have h5 : (l.drop 5).drop 3 = l.drop 8 := by rw [List.drop_drop]
  have h2 : (l.drop 2).drop 3 = l.drop 5 := by rw [List.drop_drop]
  rw [e12, ← h8, List.take_append_drop, ← h5, List.take_append_drop, ← h2,
      List.take_append_drop, List.take_append_drop]

/-- A successful `List.lookup` returns a value stored in the list. -/
theorem lookup_mem {α β : Type} [BEq α] (l : List (α × β)) (k : α) (d : β)
    (h : l.lookup k = some d) : ∃ k2, (k2, d) ∈ l := by
  induction l with
  | nil => simp [List.lookup] at h
  | cons p t ih =>
    obtain ⟨k1, v1⟩ := p
    rw [List.lookup] at h
    cases hbe : (k == k1) with
    | true =>
      rw [hbe] at h
      cases h
      exact ⟨k1, List.mem_cons_self _ _⟩
    | false =>
      rw [hbe] at h
      obtain ⟨k2, hk2⟩ := ih h
      exact ⟨k2, List.mem_cons_of_mem _ hk2⟩

/-! Claim theorems. -/

/-- C6: the identifier normalizer is specified to remove every
occurrence of `.`, `-` and `/` and change nothing else.
`CNPJDataFetcher._clean_cnpj` does exactly that, but
`CNPJScraper.clean_cnpj` in `scraper_cnpj.py` — documented identically
("Remove formatacao do CNPJ") — instead replaces `-` by `/` and never
removes `/`: on the well-formed display input `11.222.333/0001-81` it
returns `11222333/0001/81` rather than the digits-only
`11222333000181` that the API version returns. -/
theorem c6_clean_cnpj_bug_eval :
    ScraperCNPJ.clean_cnpj "11.222.333/0001-81" = "11222333/0001/81"
    ∧ CNPJApi.clean_cnpj "11.222.333/0001-81" = "11222333000181" := by
  exact ⟨rfl, rfl⟩

/-- Progress pairs recorded by `fetch_batch_go`, as a function of the
starting index. -/
theorem fetch_batch_go_progress (env : CNPJApi.FetchEnv) (total : Nat) :
    ∀ (l : List String) (idx : Nat) (cache : CNPJApi.FetchCache),
      (CNPJApi.fetch_batch_go env total idx cache l).2.1 =
        (List.range l.length).map (fun k => (idx + k + 1, total)) := by
  intro l
  induction l with
  | nil => intro idx cache; simp [CNPJApi.fetch_batch_go]
  | cons c rest ih =>
    intro idx cache
    simp only [CNPJApi.fetch_batch_go, List.length_cons, List.range_succ_eq_map,
      List.map_cons, List.map_map]
    rw [ih (idx + 1)]
    refine congrArg₂ List.cons (by simp) ?_
    apply List.map_congr_left
    intro k hk
    simp only [Function.comp_apply, Prod.mk.injEq]
    exact ⟨by omega, trivial⟩

/-- C8: during `fetch_batch` over `N` identifiers the progress callback
is invoked exactly once per identifier, in order, with
`(idx + 1, total)` — i.e. the recorded invocation list is
`(1, N), (2, N), …, (N, N)` — for every environment, including ones
where every resolution fails (`fetch_cnpj_data` is total, so the
`except` path that would skip a callback is unreachable). -/
theorem c8_progress_calls (env : CNPJApi.FetchEnv) (cache : CNPJApi.FetchCache)
    (l : List String) :
    (CNPJApi.fetch_batch env cache l).2.1 =
      (List.range l.length).map (fun i => (i + 1, l.length)) := by
  rw [CNPJApi.fetch_batch, fetch_batch_go_progress]
  apply List.map_congr_left
  intro k hk
  simp only [Prod.mk.injEq]
  exact ⟨by omega, trivial⟩

/-- C9: for a canonical identifier `c` of exactly 14 digits,
`_clean_cnpj (_format_cnpj c) = c`, hence
`_format_cnpj (_clean_cnpj (_format_cnpj c)) = _format_cnpj c`
(round-trip idempotence of punctuation insertion), and
`_format_cnpj c` is exactly the display form `NN.NNN.NNN/NNNN-NN`
of `c`'s digit groups. -/
theorem c9_format_roundtrip (c : String)
    (hlen : c.length = 14) (hdig : ∀ ch ∈ c.data, ch.isDigit) :
    CNPJApi.clean_cnpj (CNPJApi.format_cnpj c) = c
    ∧ CNPJApi.format_cnpj (CNPJApi.clean_cnpj (CNPJApi.format_cnpj c)) = CNPJApi.format_cnpj c
    ∧ (CNPJApi.format_cnpj c).data =
        c.data.take 2 ++ '.' :: ((c.data.drop 2).take 3 ++ '.' :: ((c.data.drop 5).take 3
          ++ '/' :: ((c.data.drop 8).take 4 ++ '-' :: (c.data.drop 12).take 2))) := by
  have hdig3 : ∀ ch ∈ c.data, ch ≠ '.' ∧ ch ≠ '-' ∧ ch ≠ '/' := by
    intro ch hch
    have hd := hdig ch hch
    refine ⟨?_, ?_, ?_⟩ <;> (rintro rfl; exact absurd hd (by decide))
  have hclean : CNPJApi.clean_cnpj c = c := clean_cnpj_of_no_punct c hdig3
  have hfmt : CNPJApi.format_cnpj c =
      String.mk (c.data.take 2) ++ "." ++ String.mk ((c.data.drop 2).take 3)
        ++ "." ++ String.mk ((c.data.drop 5).take 3) ++ "/"
        ++ String.mk ((c.data.drop 8).take 4) ++ "-"
        ++ String.mk ((c.data.drop 12).take 2) := by
    simp only [CNPJApi.format_cnpj]
    rw [hclean, if_pos hlen]
  have hsegT : CNPJApi.clean_cnpj (String.mk (c.data.take 2)) = String.mk (c.data.take 2) := by
    apply clean_cnpj_of_no_punct
    intro ch hch
    exact hdig3 ch (List.take_subset _ _ hch)
  have hseg : ∀ n k : Nat,
      CNPJApi.clean_cnpj (String.mk ((c.data.drop n).take k))
        = String.mk ((c.data.drop n).take k) := by
    intro n k
    apply clean_cnpj_of_no_punct
    intro ch hch
    exact hdig3 ch (List.drop_subset _ _ (List.take_subset _ _ hch))
  have hdot : CNPJApi.clean_cnpj "." = "" := rfl
  have hslash : CNPJApi.clean_cnpj "/" = "" := rfl
  have hdash : CNPJApi.clean_cnpj "-" = "" := rfl
  have hrt : CNPJApi.clean_cnpj (CNPJApi.format_cnpj c) = c := by
    rw [hfmt]
    simp only [clean_cnpj_append, hsegT, hseg, hdot, hslash, hdash]
    apply String.ext
    simp only [String.data_append]
    simp only [List.append_assoc, List.nil_append, List.append_nil]
    show c.data.take 2 ++ ((c.data.drop 2).take 3 ++ ((c.data.drop 5).take 3
      ++ ((c.data.drop 8).take 4 ++ (c.data.drop 12).take 2))) = c.data
    exact take_drop_reassemble c.data hlen
  refine ⟨hrt, by rw [hrt], ?_⟩
  rw [hfmt]
  simp only [String.data_append]
  simp only [List.append_assoc]
  rfl

/-- Witness for C9 at the concrete identifier `11222333000181`. -/
theorem c9_format_roundtrip_witness :
    ("11222333000181" : String).length = 14
    ∧ (∀ ch ∈ ("11222333000181" : String).data, ch.isDigit)
    ∧ CNPJApi.clean_cnpj (CNPJApi.format_cnpj "11222333000181") = "11222333000181"
    ∧ CNPJApi.format_cnpj "11222333000181" = "11.222.333/0001-81" :=
  ⟨by decide, by decide,
   (c9_format_roundtrip "11222333000181" (by decide) (by decide)).1, rfl⟩

/-- The bidirectional substring loop is a `find?` over the list. -/
theorem buscaSubstr_eq_find (x : String) (l : List String) :
    buscaSubstr x l = l.find? (fun m => strIn x m || strIn m x) := by
  induction l with
  | nil => rfl
  | cons a t ih =>
    by_cases hc : (strIn x a || strIn a x) = true
    · rw [buscaSubstr, if_pos hc]
      exact (@List.find?_cons_of_pos _ (fun m => strIn x m || strIn m x) a t hc).symm
    · rw [buscaSubstr, if_neg hc, ih]
      exact (@List.find?_cons_of_neg _ (fun m => strIn x m || strIn m x) a t
        (by simpa using hc)).symm

/-- C4: `normalizar_municipio` on a fetched municipality list `ms`
returns the (upper-cased) input when it occurs verbatim in `ms`, and
otherwise the first entry of `ms`, in directory order, that contains
the upper-cased input or is contained in it; it returns `none` exactly
when no entry satisfies either substring condition. -/
theorem c4_normalizar_municipio (env : Massa.LocEnv) (cache : Massa.LocCache)
    (municipio uf : String) (ms : List String)
    (hms : (Massa.obter_municipios_por_uf env cache uf).1 = ms) :
    ((Massa.normalizar_municipio env cache municipio uf).1 =
        if ms.contains (pyUpper municipio) then some (pyUpper municipio)
        else ms.find? (fun m => strIn (pyUpper municipio) m || strIn m (pyUpper municipio)))
    ∧ ((Massa.normalizar_municipio env cache municipio uf).1 = none ↔
        ∀ m ∈ ms, strIn (pyUpper municipio) m = false ∧ strIn m (pyUpper municipio) = false) := by
  have hnorm : (Massa.normalizar_municipio env cache municipio uf).1 =
      if ms.contains (pyUpper municipio) then some (pyUpper municipio)
      else buscaSubstr (pyUpper municipio) ms := by
    simp only [Massa.normalizar_municipio, hms]
    by_cases hc : ms.contains (pyUpper municipio)
    · rw [if_pos hc, if_pos hc]
    · rw [if_neg hc, if_neg hc]
  constructor
  · rw [hnorm, buscaSubstr_eq_find]
  · rw [hnorm]
    by_cases hc : ms.contains (pyUpper municipio)
    · rw [if_pos hc]
      have hmem : (pyUpper municipio) ∈ ms := by simpa using hc
      constructor
      · intro h; exact absurd h (by simp)
      · intro h
        have h1 := (h _ hmem).1
        simp [strIn_self] at h1
    · rw [if_neg hc]
      exact buscaSubstr_eq_none_iff _ _

/-- Witness for C4: a one-entry directory for `SP` containing
`SAO PAULO - CAPITAL`; the input `Sao Paulo` matches it by the
substring scan. -/
theorem c4_normalizar_municipio_witness :
    (Massa.obter_municipios_por_uf
        (fun _ => HttpResp.success 200 (some [[("nome", "SAO PAULO - CAPITAL")]]))
        [] "SP").1 = ["SAO PAULO - CAPITAL"]
    ∧ (Massa.normalizar_municipio
        (fun _ => HttpResp.success 200 (some [[("nome", "SAO PAULO - CAPITAL")]]))
        [] "Sao Paulo" "SP").1 = some "SAO PAULO - CAPITAL" :=
  ⟨rfl,
   ((c4_normalizar_municipio
      (fun _ => HttpResp.success 200 (some [[("nome", "SAO PAULO - CAPITAL")]]))
      [] "Sao Paulo" "SP" ["SAO PAULO - CAPITAL"] rfl).1).trans (by decide)⟩

/-- C10 counterexample: with a fetched list `["SAO PAULO", ""]` — a
payload whose second entry is the empty string — the empty input hits
the VERBATIM branch and `normalizar_municipio` returns `some ""`, not
the first entry `some "SAO PAULO"` that the claim predicts. -/
theorem c10_counterexample :
    (Massa.obter_municipios_por_uf
        (fun _ => HttpResp.success 200 (some [[("nome", "SAO PAULO")], [("nome", "")]]))
        [] "SP").1 = ["SAO PAULO", ""]
    ∧ (Massa.normalizar_municipio
        (fun _ => HttpResp.success 200 (some [[("nome", "SAO PAULO")], [("nome", "")]]))
        [] "" "SP").1 = some ""
    ∧ (some "" : Option String) ≠ some "SAO PAULO" := by
  refine ⟨rfl, rfl, by decide⟩

/-- C10 amended: over a non-empty fetched list, the empty municipality
name is always reported as a successful match; the result is the FIRST
entry of the list provided the empty string is not itself an entry,
and the empty string itself otherwise (verbatim branch). -/
theorem c10_empty_name_matches (env : Massa.LocEnv) (cache : Massa.LocCache)
    (uf : String) (ms : List String)
    (hms : (Massa.obter_municipios_por_uf env cache uf).1 = ms)
    (hne : ms ≠ []) :
    ((¬ "" ∈ ms) → (Massa.normalizar_municipio env cache "" uf).1 = some (ms.head hne))
    ∧ ("" ∈ ms → (Massa.normalizar_municipio env cache "" uf).1 = some "")
    ∧ ((Massa.normalizar_municipio env cache "" uf).1).isSome = true := by
  have hup : pyUpper "" = "" := rfl
  have hnorm : (Massa.normalizar_municipio env cache "" uf).1 =
      if ms.contains (pyUpper "") then some (pyUpper "")
      else buscaSubstr (pyUpper "") ms := by
    simp only [Massa.normalizar_municipio, hms]
    by_cases hc : ms.contains (pyUpper "")
    · rw [if_pos hc, if_pos hc]
    · rw [if_neg hc, if_neg hc]
  have hbranch : ∀ hmem : "" ∈ ms,
      (Massa.normalizar_municipio env cache "" uf).1 = some "" := by
    intro hmem
    have hc : ms.contains (pyUpper "") = true := by
      rw [hup]; simpa using hmem
    rw [hnorm, if_pos hc, hup]
  have hbranch2 : ∀ _ : ¬ "" ∈ ms,
      (Massa.normalizar_municipio env cache "" uf).1 = some (ms.head hne) := by
    intro hnm
    have hc : ¬ ms.contains (pyUpper "") = true := by
      rw [hup]; simpa using hnm
    rw [hnorm, if_neg hc, hup]
    cases ms with
    | nil => exact absurd rfl hne
    | cons m t => rw [buscaSubstr_head_of_empty, List.head_cons]
  refine ⟨hbranch2, hbranch, ?_⟩
  by_cases hmem : "" ∈ ms
  · rw [hbranch hmem]; rfl
  · rw [hbranch2 hmem]; rfl

/-- Witness for the amended C10 at a one-entry directory. -/
theorem c10_empty_name_matches_witness :
    (Massa.obter_municipios_por_uf
        (fun _ => HttpResp.success 200 (some [[("nome", "SAO PAULO")]])) [] "SP").1
      = ["SAO PAULO"]
    ∧ (["SAO PAULO"] : List String) ≠ []
    ∧ (¬ "" ∈ (["SAO PAULO"] : List String))
    ∧ (Massa.normalizar_municipio
        (fun _ => HttpResp.success 200 (some [[("nome", "SAO PAULO")]])) [] "" "SP").1
      = some "SAO PAULO" :=
  ⟨rfl, by decide, by decide, by
    have h := (c10_empty_name_matches
      (fun _ => HttpResp.success 200 (some [[("nome", "SAO PAULO")]])) [] "SP"
      ["SAO PAULO"] rfl (by decide)).1 (by decide)
    simpa using h⟩

/-- C7: when the municipality list for a region code is not cached and
the network fetch fails (timeout, transport error, non-success status,
or malformed payload — exactly the cases where the response parse
yields nothing), both directory implementations return the empty list,
leave the cache untouched, and a subsequent call repeats the network
fetch (again one request) instead of serving a cached failure. -/
theorem c7_locality_failure_not_cached
    (env : Massa.LocEnv) (cache : Massa.LocCache) (uf : String)
    (hnc : cache.lookup uf = none)
    (hfail : Massa.municipiosFromResp (env uf) = none)
    (env2 : Massa.LocEnv) (cache2 : Massa.LocCache) (uf2 : String)
    (hnc2 : cache2.lookup uf2 = none)
    (hfail2 : LocAPI.citiesFromResp (env2 uf2) = none) :
    Massa.obter_municipios_por_uf env cache uf = ([], cache, 1)
    ∧ Massa.obter_municipios_por_uf env
        (Massa.obter_municipios_por_uf env cache uf).2.1 uf = ([], cache, 1)
    ∧ LocAPI.get_cities_by_uf env2 cache2 uf2 = ([], cache2, 1)
    ∧ LocAPI.get_cities_by_uf env2
        (LocAPI.get_cities_by_uf env2 cache2 uf2).2.1 uf2 = ([], cache2, 1) := by
  have h1 : Massa.obter_municipios_por_uf env cache uf = ([], cache, 1) := by
    unfold Massa.obter_municipios_por_uf
    rw [hnc, hfail]
  have h2 : LocAPI.get_cities_by_uf env2 cache2 uf2 = ([], cache2, 1) := by
    unfold LocAPI.get_cities_by_uf
    rw [hnc2, hfail2]
  exact ⟨h1, by rw [h1]; exact h1, h2, by rw [h2]; exact h2⟩

/-- Witness for C7: a timed-out fetch on an empty cache. -/
theorem c7_locality_failure_witness :
    (([] : Massa.LocCache).lookup "SP" = none)
    ∧ Massa.municipiosFromResp (HttpResp.timeout : HttpResp (List (List (String × String)))) = none
    ∧ Massa.obter_municipios_por_uf (fun _ => HttpResp.timeout) [] "SP" = ([], [], 1)
    ∧ LocAPI.get_cities_by_uf (fun _ => HttpResp.timeout) [] "RJ" = ([], [], 1) :=
  ⟨rfl, rfl,
   (c7_locality_failure_not_cached (fun _ => HttpResp.timeout) [] "SP" rfl rfl
      (fun _ => HttpResp.timeout) [] "RJ" rfl rfl).1,
   (c7_locality_failure_not_cached (fun _ => HttpResp.timeout) [] "SP" rfl rfl
      (fun _ => HttpResp.timeout) [] "RJ" rfl rfl).2.2.1⟩

/-- Any record produced by the first source adapter has the canonical
ten keys. -/
theorem dictKeys_cnpjs_dev (env : CNPJApi.FetchEnv) (cnpj : String)
    (d : CNPJApi.Dict) (h : CNPJApi.fetch_from_cnpjs_dev env cnpj = some d) :
    CNPJApi.dictKeys d = CNPJApi.canonKeys := by
  unfold CNPJApi.fetch_from_cnpjs_dev at h
  split at h
  · cases h; rfl
  all_goals cases h

/-- Any record produced by the second source adapter has the canonical
ten keys. -/
theorem dictKeys_moccasin (env : CNPJApi.FetchEnv) (cnpj : String)
    (d : CNPJApi.Dict) (h : CNPJApi.fetch_from_moccasin env cnpj = some d) :
    CNPJApi.dictKeys d = CNPJApi.canonKeys := by
  unfold CNPJApi.fetch_from_moccasin at h
  split at h
  · split at h
    · cases h; rfl
    · cases h
  all_goals cases h

/-- The sentinel record has the canonical ten keys. -/
theorem dictKeys_notFound (cnpj : String) :
    CNPJApi.dictKeys (CNPJApi.notFoundDict cnpj) = CNPJApi.canonKeys := rfl

/-- C3: `fetch_cnpj_data` is total — every exception path of the source
is caught internally and mapped to `None`/the sentinel, so the
embedding returns a plain record — and for EVERY environment (timeouts,
transport errors, non-200 statuses, unparseable or ill-shaped JSON) and
EVERY input string, including non-digit garbage, the returned record
carries the full canonical field set; moreover the cache invariant is
preserved, so the same holds across a whole run. -/
theorem c3_resolve_total (env : CNPJApi.FetchEnv) (cache : CNPJApi.FetchCache)
    (cnpj : String) (hwf : CNPJApi.WFCache cache) :
    CNPJApi.dictKeys (CNPJApi.fetch_cnpj_data env cache cnpj).1 = CNPJApi.canonKeys
    ∧ CNPJApi.WFCache (CNPJApi.fetch_cnpj_data env cache cnpj).2.1 := by
  unfold CNPJApi.fetch_cnpj_data
  cases hl : cache.lookup (CNPJApi.clean_cnpj cnpj) with
  | some d =>
    simp only [hl]
    obtain ⟨k2, hk⟩ := lookup_mem _ _ _ hl
    exact ⟨hwf _ hk, hwf⟩
  | none =>
    simp only [hl]
    cases h1 : CNPJApi.fetch_from_cnpjs_dev env cnpj with
    | some d =>
      simp only [h1]
      have hd := dictKeys_cnpjs_dev env cnpj d h1
      refine ⟨hd, fun p hp => ?_⟩
      rcases List.mem_cons.mp hp with rfl | hp
      · exact hd
      · exact hwf p hp
    | none =>
      simp only [h1]
      cases h2 : CNPJApi.fetch_from_moccasin env cnpj with
      | some d =>
        simp only [h2]
        have hd := dictKeys_moccasin env cnpj d h2
        refine ⟨hd, fun p hp => ?_⟩
        rcases List.mem_cons.mp hp with rfl | hp
        · exact hd
        · exact hwf p hp
      | none =>
        simp only [h2]
        refine ⟨dictKeys_notFound cnpj, fun p hp => ?_⟩
        rcases List.mem_cons.mp hp with rfl | hp
        · exact dictKeys_notFound cnpj
        · exact hwf p hp

/-- Witness for C3: a fresh fetcher, a garbage identifier, and an
environment where one source times out and the other returns malformed
JSON. -/
theorem c3_resolve_total_witness :
    CNPJApi.WFCache []
    ∧ CNPJApi.dictKeys
        (CNPJApi.fetch_cnpj_data
          { cnpjs_dev := fun _ => HttpResp.timeout,
            moccasin := fun _ => HttpResp.success 200 none }
          [] "not-a-cnpj!!").1 = CNPJApi.canonKeys :=
  ⟨fun p hp => absurd hp (List.not_mem_nil p),
   (c3_resolve_total
      { cnpjs_dev := fun _ => HttpResp.timeout,
        moccasin := fun _ => HttpResp.success 200 none }
      [] "not-a-cnpj!!" (fun p hp => absurd hp (List.not_mem_nil p))).1⟩


/-- After any `fetch_cnpj_data` call, the returned record is stored in
the returned cache under the cleaned identifier. -/
theorem fetch_cnpj_data_self_cached (env : CNPJApi.FetchEnv)
    (cache : CNPJApi.FetchCache) (x : String) :
    (CNPJApi.fetch_cnpj_data env cache x).2.1.lookup (CNPJApi.clean_cnpj x)
      = some (CNPJApi.fetch_cnpj_data env cache x).1 := by
  unfold CNPJApi.fetch_cnpj_data
  cases hl : cache.lookup (CNPJApi.clean_cnpj x) with
  | some d => simp [hl]
  | none =>
    cases h1 : CNPJApi.fetch_from_cnpjs_dev env x <;>
      cases h2 : CNPJApi.fetch_from_moccasin env x <;>
        simp [hl, h1, h2, List.lookup]

/-- A repeated `fetch_cnpj_data` call returns the identical record,
leaves the cache unchanged, and performs zero network requests. -/
theorem fetch_cnpj_data_second (env : CNPJApi.FetchEnv)
    (cache : CNPJApi.FetchCache) (x : String) :
    CNPJApi.fetch_cnpj_data env (CNPJApi.fetch_cnpj_data env cache x).2.1 x
      = ((CNPJApi.fetch_cnpj_data env cache x).1,
         (CNPJApi.fetch_cnpj_data env cache x).2.1, 0) := by
  have h := fetch_cnpj_data_self_cached env cache x
  generalize hy : CNPJApi.fetch_cnpj_data env cache x = y at h ⊢
  simp only [CNPJApi.fetch_cnpj_data]
  rw [h]

/-- When no cached record exists and the API response is in the
handled failure class — timeout, transport error, non-200 status, or a
body that does not decode as JSON at all (everything except an HTTP 200
with a decodable body) — `consultar_cnpj` issues one request,
synthesizes the `ERRO_CONSULTA` sentinel stamped with the current
clock, advances the clock, and stores NOTHING in the cache. -/
theorem consultar_cnpj_failure (envC : Massa.BrasilEnv) (b : String)
    (hbfail : ∀ bd : Massa.BrasilJson,
      envC (Massa.cnpj_limpo b) ≠ HttpResp.success 200 (some bd)) :
    ∀ st : Massa.CState, st.cache.lookup (Massa.cnpj_limpo b) = none →
      Massa.consultar_cnpj envC st b
        = Except.ok (Massa.erroConsulta b st.clock,
            { st with clock := st.clock + 1 }, 1) := by
  intro st hnc
  have hb1 : Massa.consultar_brasilapi envC st b = Except.ok (none, st, 1) := by
    unfold Massa.consultar_brasilapi
    rw [hnc]
    split
    · next r heq => exact Option.noConfusion heq
    · split
      · next data heq => exact absurd heq (hbfail (Massa.BrasilJson.obj data))
      · next heq => exact absurd heq (hbfail Massa.BrasilJson.nonObj)
      all_goals rfl
  unfold Massa.consultar_cnpj
  rw [hb1]

/-- When the API answers HTTP 200 with an object body for an uncached
identifier, `consultar_cnpj` succeeds, and a repeated call returns the
identical record from the cache with zero network requests. -/
theorem consultar_cnpj_success_repeat (envC2 : Massa.BrasilEnv) (c : String)
    (body : List (String × String))
    (hok : envC2 (Massa.cnpj_limpo c)
      = HttpResp.success 200 (some (Massa.BrasilJson.obj body))) :
    ∀ (stC2 : Massa.CState),
      (∃ r st1 n, Massa.consultar_cnpj envC2 stC2 c = Except.ok (r, st1, n))
      ∧ (∀ (r : Massa.RegistroC) (st1 : Massa.CState) (n : Nat),
          Massa.consultar_cnpj envC2 stC2 c = Except.ok (r, st1, n) →
          Massa.consultar_cnpj envC2 st1 c = Except.ok (r, st1, 0)) := by
  intro stC2
  cases hl : stC2.cache.lookup (Massa.cnpj_limpo c) with
  | some r0 =>
    have h1 : Massa.consultar_brasilapi envC2 stC2 c = Except.ok (some r0, stC2, 0) := by
      unfold Massa.consultar_brasilapi
      rw [hl]
    have h2 : Massa.consultar_cnpj envC2 stC2 c = Except.ok (r0, stC2, 0) := by
      unfold Massa.consultar_cnpj
      rw [h1]
    refine ⟨⟨r0, stC2, 0, h2⟩, ?_⟩
    intro r st1 n heq
    rw [h2] at heq
    injection heq with h6
    obtain ⟨rfl, rfl, rfl⟩ : r0 = r ∧ stC2 = st1 ∧ 0 = n := by simpa using h6
    exact h2
  | none =>
    have h1 : Massa.consultar_brasilapi envC2 stC2 c
        = Except.ok (some (Massa.registroFrom c body stC2.clock),
           { stC2 with
              cache := (Massa.cnpj_limpo c, Massa.registroFrom c body stC2.clock)
                :: stC2.cache
              clock := stC2.clock + 1 }, 1) := by
      unfold Massa.consultar_brasilapi
      rw [hl, hok]
    have h2 : Massa.consultar_cnpj envC2 stC2 c
        = Except.ok (Massa.registroFrom c body stC2.clock,
           { stC2 with
              cache := (Massa.cnpj_limpo c, Massa.registroFrom c body stC2.clock)
                :: stC2.cache
              clock := stC2.clock + 1 }, 1) := by
      unfold Massa.consultar_cnpj
      rw [h1]
    refine ⟨⟨_, _, _, h2⟩, ?_⟩
    intro r st1 n heq
    rw [h2] at heq
    injection heq with h6
    obtain ⟨rfl, rfl, rfl⟩ : Massa.registroFrom c body stC2.clock = r
        ∧ ({ stC2 with
              cache := (Massa.cnpj_limpo c, Massa.registroFrom c body stC2.clock)
                :: stC2.cache
              clock := stC2.clock + 1 } : Massa.CState) = st1
        ∧ 1 = n := by simpa using h6
    have h3 : Massa.consultar_brasilapi envC2
        ({ stC2 with
            cache := (Massa.cnpj_limpo c, Massa.registroFrom c body stC2.clock)
              :: stC2.cache
            clock := stC2.clock + 1 }) c
        = Except.ok (some (Massa.registroFrom c body stC2.clock),
           { stC2 with
              cache := (Massa.cnpj_limpo c, Massa.registroFrom c body stC2.clock)
                :: stC2.cache
              clock := stC2.clock + 1 }, 0) := by
      unfold Massa.consultar_brasilapi
      rw [show ({ stC2 with
            cache := (Massa.cnpj_limpo c, Massa.registroFrom c body stC2.clock)
              :: stC2.cache
            clock := stC2.clock + 1 } : Massa.CState).cache.lookup (Massa.cnpj_limpo c)
          = some (Massa.registroFrom c body stC2.clock) by simp [List.lookup]]
    unfold Massa.consultar_cnpj
    rw [h3]

/-- C1 counterexample: for `ConsultorCNPJ.consultar_cnpj` with the
source failing (transport error) on a fresh state, the synthesized
sentinel is NOT cached (the returned state still has an empty cache),
the second call for the same identifier performs a network request
again, and the two returned records differ (fresh `data_consulta`
stamp) — against the claimed zero second-call requests, identical
record, and cached sentinel. -/
theorem c1_counterexample :
    Massa.consultar_cnpj (fun _ => HttpResp.netError)
        { cache := [], clock := 0, loc := [] } "11222333000181"
      = Except.ok (Massa.erroConsulta "11222333000181" 0,
          { cache := [], clock := 1, loc := [] }, 1)
    ∧ Massa.consultar_cnpj (fun _ => HttpResp.netError)
        { cache := [], clock := 1, loc := [] } "11222333000181"
      = Except.ok (Massa.erroConsulta "11222333000181" 1,
          { cache := [], clock := 2, loc := [] }, 1)
    ∧ (([] : List (String × Massa.RegistroC)).lookup
        (Massa.cnpj_limpo "11222333000181") = none)
    ∧ Massa.erroConsulta "11222333000181" 1 ≠ Massa.erroConsulta "11222333000181" 0 := by
  refine ⟨rfl, rfl, rfl, by decide⟩

/-- C1 amended: `CNPJDataFetcher.fetch_cnpj_data` behaves as claimed —
a repeated resolution returns the identical record with zero network
requests and an unchanged cache, and when every source fails the
all-sentinel record (status `nao_encontrado`, source `nenhuma`) is
itself stored in the cache.  `ConsultorCNPJ.consultar_cnpj`, however,
caches only SUCCESSFUL resolutions (a repeat then returns the identical
record with zero requests): a resolution failing in the handled class
(timeout, transport error, non-200, undecodable body) is not cached, so
a repeated request performs a network request again and returns a
record with a fresh timestamp.  (An HTTP-200 non-object JSON body is
outside both classes: there `consultar_cnpj` raises, see C2.) -/
theorem c1_cache_correctness
    (envA : CNPJApi.FetchEnv) (cacheA : CNPJApi.FetchCache) (a : String)
    (envC : Massa.BrasilEnv) (stC : Massa.CState) (b : String)
    (envC2 : Massa.BrasilEnv) (stC2 : Massa.CState) (c : String)
    (body : List (String × String))
    (hanc : cacheA.lookup (CNPJApi.clean_cnpj a) = none)
    (hfa : CNPJApi.fetch_from_cnpjs_dev envA a = none)
    (hfm : CNPJApi.fetch_from_moccasin envA a = none)
    (hbnc : stC.cache.lookup (Massa.cnpj_limpo b) = none)
    (hbfail : ∀ bd : Massa.BrasilJson,
      envC (Massa.cnpj_limpo b) ≠ HttpResp.success 200 (some bd))
    (hok : envC2 (Massa.cnpj_limpo c)
      = HttpResp.success 200 (some (Massa.BrasilJson.obj body))) :
    CNPJApi.fetch_cnpj_data envA (CNPJApi.fetch_cnpj_data envA cacheA a).2.1 a
      = ((CNPJApi.fetch_cnpj_data envA cacheA a).1,
         (CNPJApi.fetch_cnpj_data envA cacheA a).2.1, 0)
    ∧ (CNPJApi.fetch_cnpj_data envA cacheA a).1 = CNPJApi.notFoundDict a
    ∧ (CNPJApi.fetch_cnpj_data envA cacheA a).2.1.lookup (CNPJApi.clean_cnpj a)
        = some (CNPJApi.notFoundDict a)
    ∧ Massa.consultar_cnpj envC stC b
        = Except.ok (Massa.erroConsulta b stC.clock,
            { stC with clock := stC.clock + 1 }, 1)
    ∧ ({ stC with clock := stC.clock + 1 } : Massa.CState).cache.lookup
        (Massa.cnpj_limpo b) = none
    ∧ Massa.consultar_cnpj envC { stC with clock := stC.clock + 1 } b
        = Except.ok (Massa.erroConsulta b (stC.clock + 1),
            { stC with clock := stC.clock + 1 + 1 }, 1)
    ∧ Massa.erroConsulta b (stC.clock + 1) ≠ Massa.erroConsulta b stC.clock
    ∧ (∃ r st1 n, Massa.consultar_cnpj envC2 stC2 c = Except.ok (r, st1, n))
    ∧ (∀ (r : Massa.RegistroC) (st1 : Massa.CState) (n : Nat),
        Massa.consultar_cnpj envC2 stC2 c = Except.ok (r, st1, n) →
        Massa.consultar_cnpj envC2 st1 c = Except.ok (r, st1, 0)) := by
  have hfetch : CNPJApi.fetch_cnpj_data envA cacheA a
      = (CNPJApi.notFoundDict a,
         (CNPJApi.clean_cnpj a, CNPJApi.notFoundDict a) :: cacheA, 2) := by
    simp only [CNPJApi.fetch_cnpj_data]
    rw [hanc, hfa, hfm]
  have hb1 := consultar_cnpj_failure envC b hbfail stC hbnc
  have hb2 := consultar_cnpj_failure envC b hbfail { stC with clock := stC.clock + 1 }
    (by simpa using hbnc)
  refine ⟨fetch_cnpj_data_second envA cacheA a,
    by rw [hfetch],
    by rw [hfetch]; simp [List.lookup],
    hb1, hbnc, hb2, ?_,
    (consultar_cnpj_success_repeat envC2 c body hok stC2).1,
    (consultar_cnpj_success_repeat envC2 c body hok stC2).2⟩
  intro hcontra
  have hdc := congrArg Massa.RegistroC.data_consulta hcontra
  simp [Massa.erroConsulta] at hdc

/-- Witness for the amended C1: both sources fail for the fetcher (the
sentinel is returned); the consultant fails on `123` with a transport
error (sentinel with clock stamp 0, nothing cached) and succeeds on
`456` (the repeat call is served from the cache with zero requests). -/
theorem c1_cache_correctness_witness :
    (CNPJApi.fetch_cnpj_data
        { cnpjs_dev := fun _ => HttpResp.timeout, moccasin := fun _ => HttpResp.netError }
        [] "11222333000181").1 = CNPJApi.notFoundDict "11222333000181"
    ∧ Massa.consultar_cnpj (fun _ => HttpResp.netError)
        { cache := [], clock := 0, loc := [] } "123"
      = Except.ok (Massa.erroConsulta "123" 0,
          { cache := [], clock := 1, loc := [] }, 1)
    ∧ Massa.consultar_cnpj
        (fun _ => HttpResp.success 200 (some (Massa.BrasilJson.obj
          [("razao_social", "ACME")])))
        { cache := [("456", Massa.registroFrom "456" [("razao_social", "ACME")] 0)],
          clock := 1, loc := [] } "456"
      = Except.ok (Massa.registroFrom "456" [("razao_social", "ACME")] 0,
          { cache := [("456", Massa.registroFrom "456" [("razao_social", "ACME")] 0)],
            clock := 1, loc := [] }, 0) := by
  have h := c1_cache_correctness
    { cnpjs_dev := fun _ => HttpResp.timeout, moccasin := fun _ => HttpResp.netError }
    [] "11222333000181"
    (fun _ => HttpResp.netError) { cache := [], clock := 0, loc := [] } "123"
    (fun _ => HttpResp.success 200 (some (Massa.BrasilJson.obj
      [("razao_social", "ACME")])))
    { cache := [], clock := 0, loc := [] } "456"
    [("razao_social", "ACME")]
    rfl rfl rfl rfl (fun bd hbd => HttpResp.noConfusion hbd) rfl
  exact ⟨h.2.1, h.2.2.2.1,
    h.2.2.2.2.2.2.2.2 (Massa.registroFrom "456" [("razao_social", "ACME")] 0)
      { cache := [("456", Massa.registroFrom "456" [("razao_social", "ACME")] 0)],
        clock := 1, loc := [] } 1 rfl⟩

/-- Results of `fetch_batch_go`: one record per input, in input order,
each produced by `fetch_cnpj_data` at the cache state reached after the
preceding inputs. -/
theorem fetch_batch_go_results (env : CNPJApi.FetchEnv) (total : Nat) :
    ∀ (l : List String) (idx : Nat) (cache : CNPJApi.FetchCache),
      (CNPJApi.fetch_batch_go env total idx cache l).1.length = l.length
      ∧ ∀ (i : Nat) (h : i < l.length),
          (CNPJApi.fetch_batch_go env total idx cache l).1.get? i
            = some (CNPJApi.fetch_cnpj_data env
                (CNPJApi.foldCache env cache (l.take i)) (l.get ⟨i, h⟩)).1 := by
  intro l
  induction l with
  | nil =>
    intro idx cache
    exact ⟨rfl, fun i h => absurd h (Nat.not_lt_zero i)⟩
  | cons c rest ih =>
    intro idx cache
    constructor
    · simp only [CNPJApi.fetch_batch_go, List.length_cons]
      rw [(ih (idx + 1) (CNPJApi.fetch_cnpj_data env cache c).2.1).1]
    · intro i h
      match i with
      | 0 =>
        simp only [CNPJApi.fetch_batch_go, List.get?_cons_zero, CNPJApi.foldCache,
          List.take_zero, List.foldl_nil]
        rfl
      | Nat.succ j =>
        simp only [CNPJApi.fetch_batch_go, List.get?_cons_succ]
        have hj : j < rest.length := Nat.lt_of_succ_lt_succ h
        rw [(ih (idx + 1) (CNPJApi.fetch_cnpj_data env cache c).2.1).2 j hj]
        rfl

/-- Under a safe environment — no response is an HTTP 200 whose body
decodes to non-object JSON — `consultar_brasilapi` never raises. -/
theorem consultar_brasilapi_total (cenv : Massa.BrasilEnv)
    (hsafe : ∀ k, cenv k ≠ HttpResp.success 200 (some Massa.BrasilJson.nonObj)) :
    ∀ (st : Massa.CState) (cnpj : String),
      ∃ v, Massa.consultar_brasilapi cenv st cnpj = Except.ok v := by
  intro st cnpj
  unfold Massa.consultar_brasilapi
  split
  · exact ⟨_, rfl⟩
  · split
    · exact ⟨_, rfl⟩
    · next heq => exact absurd heq (hsafe _)
    · exact ⟨_, rfl⟩
    · exact ⟨_, rfl⟩
    · exact ⟨_, rfl⟩
    · exact ⟨_, rfl⟩

/-- Under a safe environment `consultar_cnpj` never raises. -/
theorem consultar_cnpj_total (cenv : Massa.BrasilEnv)
    (hsafe : ∀ k, cenv k ≠ HttpResp.success 200 (some Massa.BrasilJson.nonObj)) :
    ∀ (st : Massa.CState) (cnpj : String),
      ∃ v, Massa.consultar_cnpj cenv st cnpj = Except.ok v := by
  intro st cnpj
  obtain ⟨⟨o, st1, n⟩, hv⟩ := consultar_brasilapi_total cenv hsafe st cnpj
  unfold Massa.consultar_cnpj
  rw [hv]
  cases o with
  | some r => exact ⟨_, rfl⟩
  | none => exact ⟨_, rfl⟩

/-- Under a safe environment each loop iteration of `processar_lote`
yields exactly one `Resultado`, whose `CNPJ` field is the stripped
input identifier. -/
theorem processar_linha_total (cenv : Massa.BrasilEnv) (lenv : Massa.LocEnv)
    (hsafe : ∀ k, cenv k ≠ HttpResp.success 200 (some Massa.BrasilJson.nonObj)) :
    ∀ (st : Massa.CState) (row : Massa.Linha),
      ∃ w, Massa.processar_linha cenv lenv st row = Except.ok w
        ∧ w.1.CNPJ = pyStrip row.cnpj := by
  intro st row
  obtain ⟨⟨r, st1, n⟩, hv⟩ := consultar_cnpj_total cenv hsafe st (pyStrip row.cnpj)
  simp only [Massa.processar_linha]
  rw [hv]
  exact ⟨_, rfl, rfl⟩

/-- One unfolding step of `processar_lote` when the head row succeeds. -/
theorem processar_lote_cons_ok (cenv : Massa.BrasilEnv) (lenv : Massa.LocEnv)
    (st : Massa.CState) (row : Massa.Linha) (rest : List Massa.Linha)
    (w : Massa.Resultado × Massa.CState)
    (hw : Massa.processar_linha cenv lenv st row = Except.ok w) :
    Massa.processar_lote cenv lenv st (row :: rest)
      = match Massa.processar_lote cenv lenv w.2 rest with
        | .error e => .error e
        | .ok next => .ok (w.1 :: next.1, next.2) := by
  simp only [Massa.processar_lote]
  rw [hw]

/-- Under a safe environment `processar_lote` returns `ok` with exactly
one `Resultado` per row, in row order, the `CNPJ` column being the
stripped input identifiers. -/
theorem processar_lote_total_len_map (cenv : Massa.BrasilEnv) (lenv : Massa.LocEnv)
    (hsafe : ∀ k, cenv k ≠ HttpResp.success 200 (some Massa.BrasilJson.nonObj)) :
    ∀ (rows : List Massa.Linha) (st : Massa.CState),
      ∃ res : List Massa.Resultado × Massa.CState,
        Massa.processar_lote cenv lenv st rows = Except.ok res
        ∧ res.1.length = rows.length
        ∧ res.1.map (fun r => r.CNPJ) = rows.map (fun row => pyStrip row.cnpj) := by
  intro rows
  induction rows with
  | nil => intro st; exact ⟨([], st), rfl, rfl, rfl⟩
  | cons row rest ih =>
    intro st
    obtain ⟨w, hw, hcnpj⟩ := processar_linha_total cenv lenv hsafe st row
    obtain ⟨res, hres, hlen, hmap⟩ := ih w.2
    refine ⟨(w.1 :: res.1, res.2), ?_, ?_, ?_⟩
    · rw [processar_lote_cons_ok cenv lenv st row rest w hw, hres]
    · simp [hlen]
    · simp [hmap, hcnpj]

/-- C2 counterexample: one row whose API response is HTTP 200 with a
JSON body that is not an object (e.g. `[]`): `data.get` raises
`AttributeError`, which only `requests.exceptions.RequestException`
handlers guard against, so it escapes `consultar_cnpj` and the
`try`-less `processar_lote` loop — the batch aborts with NO records
instead of returning the claimed one record for its one input. -/
theorem c2_counterexample :
    Massa.processar_lote
        (fun _ => HttpResp.success 200 (some Massa.BrasilJson.nonObj))
        (fun _ => HttpResp.timeout) { cache := [], clock := 0, loc := [] }
        [{ cnpj := "11222333000181", uf_base := "SP", municipio_base := "SAO PAULO",
           empresa := "ACME" }]
      = Except.error Massa.PyExn.attributeError := by
  rfl

/-- C2 amended: `fetch_batch` over `N` identifiers returns exactly `N`
records, one per input identifier in input order (the `i`-th output is
the resolver's record for the `i`-th input at the intermediate cache
state), for EVERY environment, in particular when every resolution
fails.  `processar_lote` over `N` rows returns exactly `N` `Resultado`s
whose `CNPJ` column equals, in order, the stripped input identifiers,
PROVIDED no API response is an HTTP 200 whose body decodes to
non-object JSON — on such a response the uncaught `AttributeError`
halts the whole batch with no records. -/
theorem c2_one_record_per_input
    (env : CNPJApi.FetchEnv) (cache : CNPJApi.FetchCache) (l : List String)
    (cenv : Massa.BrasilEnv) (lenv : Massa.LocEnv) (st : Massa.CState)
    (rows : List Massa.Linha)
    (hsafe : ∀ k, cenv k ≠ HttpResp.success 200 (some Massa.BrasilJson.nonObj)) :
    (CNPJApi.fetch_batch env cache l).1.length = l.length
    ∧ (∀ (i : Nat) (h : i < l.length),
        (CNPJApi.fetch_batch env cache l).1.get? i
          = some (CNPJApi.fetch_cnpj_data env
              (CNPJApi.foldCache env cache (l.take i)) (l.get ⟨i, h⟩)).1)
    ∧ ∃ res : List Massa.Resultado × Massa.CState,
        Massa.processar_lote cenv lenv st rows = Except.ok res
        ∧ res.1.length = rows.length
        ∧ res.1.map (fun r => r.CNPJ) = rows.map (fun row => pyStrip row.cnpj) := by
  refine ⟨(fetch_batch_go_results env l.length l 0 cache).1,
    fun i h => (fetch_batch_go_results env l.length l 0 cache).2 i h,
    processar_lote_total_len_map cenv lenv hsafe rows st⟩

/-- Witness for the amended C2: a two-identifier batch against
all-failing sources, and a one-row lot against an API whose failures
are all transport errors (a safe environment). -/
theorem c2_one_record_per_input_witness :
    (CNPJApi.fetch_batch
        { cnpjs_dev := fun _ => HttpResp.timeout, moccasin := fun _ => HttpResp.timeout }
        [] ["11222333000181", "garbage"]).1.length = 2
    ∧ (CNPJApi.fetch_batch
        { cnpjs_dev := fun _ => HttpResp.timeout, moccasin := fun _ => HttpResp.timeout }
        [] ["11222333000181", "garbage"]).1.get? 0
        = some (CNPJApi.notFoundDict "11222333000181")
    ∧ ∃ res : List Massa.Resultado × Massa.CState,
        Massa.processar_lote (fun _ => HttpResp.netError) (fun _ => HttpResp.timeout)
          { cache := [], clock := 0, loc := [] }
          [{ cnpj := " 123 ", uf_base := "SP", municipio_base := "Sao Paulo",
             empresa := "ACME" }] = Except.ok res
        ∧ res.1.length = 1
        ∧ res.1.map (fun r => r.CNPJ) = ["123"] := by
  have h := c2_one_record_per_input
    { cnpjs_dev := fun _ => HttpResp.timeout, moccasin := fun _ => HttpResp.timeout }
    [] ["11222333000181", "garbage"]
    (fun _ => HttpResp.netError) (fun _ => HttpResp.timeout)
    { cache := [], clock := 0, loc := [] }
    [{ cnpj := " 123 ", uf_base := "SP", municipio_base := "Sao Paulo",
       empresa := "ACME" }]
    (fun k hk => HttpResp.noConfusion hk)
  obtain ⟨h1, h2, res, hres, hlen, hmap⟩ := h
  exact ⟨h1, (h2 0 (by decide)).trans rfl, res, hres, hlen, hmap⟩

/-- Soundness of the region scan: a returned key names a table entry
with the right region code and a substring-matching member. -/
theorem acheRegiao_some (mu uf r : String) :
    ∀ l : List (String × Massa.RegiaoMetro), Massa.acheRegiao mu uf l = some r →
      ∃ p, p ∈ l ∧ p.1 = r ∧ p.2.uf = uf
        ∧ ∃ m ∈ p.2.municipios, (strIn mu m || strIn m mu) = true := by
  intro l
  induction l with
  | nil => intro h; exact absurd h (by simp [Massa.acheRegiao])
  | cons p t ih =>
    intro h
    obtain ⟨nome, dados⟩ := p
    simp only [Massa.acheRegiao] at h
    by_cases hu : dados.uf = uf
    · rw [if_pos hu] at h
      cases hb : buscaSubstr mu dados.municipios with
      | some m =>
        rw [hb] at h
        obtain ⟨hm, hp⟩ := buscaSubstr_some mu m dados.municipios hb
        exact ⟨(nome, dados), List.mem_cons_self _ _, Option.some.inj h, hu, m, hm, hp⟩
      | none =>
        rw [hb] at h
        obtain ⟨q, hq, hrest⟩ := ih h
        exact ⟨q, List.mem_cons_of_mem _ hq, hrest⟩
    · rw [if_neg hu] at h
      obtain ⟨q, hq, hrest⟩ := ih h
      exact ⟨q, List.mem_cons_of_mem _ hq, hrest⟩

/-- Completeness of the region scan: when no table entry for the region
code has a substring-matching member, the scan returns `none`. -/
theorem acheRegiao_none (mu uf : String) :
    ∀ l : List (String × Massa.RegiaoMetro),
      (∀ p ∈ l, p.2.uf = uf →
        ∀ m ∈ p.2.municipios, (strIn mu m || strIn m mu) = false) →
      Massa.acheRegiao mu uf l = none := by
  intro l
  induction l with
  | nil => intro _; rfl
  | cons p t ih =>
    intro hall
    obtain ⟨nome, dados⟩ := p
    simp only [Massa.acheRegiao]
    by_cases hu : dados.uf = uf
    · rw [if_pos hu]
      have hnone : buscaSubstr mu dados.municipios = none := by
        rw [buscaSubstr_eq_none_iff]
        intro m hm
        have := hall (nome, dados) (List.mem_cons_self _ _) hu m hm
        constructor
        · exact Bool.or_eq_false_iff.mp this |>.1
        · exact Bool.or_eq_false_iff.mp this |>.2
      rw [hnone]
      exact ih (fun q hq => hall q (List.mem_cons_of_mem _ hq))
    · rw [if_neg hu]
      exact ih (fun q hq => hall q (List.mem_cons_of_mem _ hq))

/-- C5 counterexample: the spec words `is_member` as a bidirectional
substring match, but `LocalizationAPI.is_metropolitan_area` tests EXACT
(upper-cased, stripped) membership: on region `SP` and city
`Sao Paulo - Capital`, the member `Sao Paulo` is a substring of the
input — the spec-worded function answers `(true, RMSP…)` — yet the
implementation answers `(false, none)`. -/
theorem c5_counterexample :
    LocAPI.is_member_spec "SP" "Sao Paulo - Capital"
      = (true, some "RMSP - Regiao Metropolitana de Sao Paulo")
    ∧ LocAPI.is_metropolitan_area "SP" "Sao Paulo - Capital" = (false, none)
    ∧ strIn (pyStrip (pyUpper "Sao Paulo")) (pyStrip (pyUpper "Sao Paulo - Capital"))
        = true := by
  refine ⟨by decide, by decide, by decide⟩

/-- C5 amended: `is_metropolitan_area` performs the table lookup and,
when an area is configured, an EXACT case-insensitive (upper-cased,
whitespace-stripped) membership test — not a substring match —
returning `(true, area name)` on membership and `(false, none)`
otherwise; for any region code with no configured area it returns
`(false, none)` for every city.  The bidirectional substring variant
lives in `identificar_regiao_metro`, which returns the key of a region
whose code matches and whose member list has a substring match, and
`none` when no configured region/member matches. -/
theorem c5_is_member (uf city : String) :
    (LocAPI.metropolitan_regions.lookup uf = none →
      LocAPI.is_metropolitan_area uf city = (false, none))
    ∧ (∀ region, LocAPI.metropolitan_regions.lookup uf = some region →
        LocAPI.is_metropolitan_area uf city =
          if (region.cities.map (fun c => pyStrip (pyUpper c))).contains
              (pyStrip (pyUpper city))
          then (true, some region.name) else (false, none))
    ∧ (∀ r, Massa.identificar_regiao_metro city uf = some r →
        ∃ p, p ∈ Massa.regioes_metropo ∧ p.1 = r ∧ p.2.uf = uf
          ∧ ∃ m ∈ p.2.municipios,
              (strIn (pyUpper city) m || strIn m (pyUpper city)) = true)
    ∧ ((∀ p ∈ Massa.regioes_metropo, p.2.uf = uf →
          ∀ m ∈ p.2.municipios,
            (strIn (pyUpper city) m || strIn m (pyUpper city)) = false) →
        Massa.identificar_regiao_metro city uf = none) := by
  refine ⟨?_, ?_, ?_, ?_⟩
  · intro hnone
    simp only [LocAPI.is_metropolitan_area, hnone]
  · intro region hsome
    simp only [LocAPI.is_metropolitan_area, hsome]
  · intro r h
    exact acheRegiao_some (pyUpper city) uf r Massa.regioes_metropo h
  · intro hall
    exact acheRegiao_none (pyUpper city) uf Massa.regioes_metropo hall

/-- Witness for the amended C5: a region code with no configured area
(`XX`) answers `(false, none)` in both classifiers; on `SP`,
`Guarulhos` is an exact member, and the substring classifier returns
the region key. -/
theorem c5_is_member_witness :
    LocAPI.metropolitan_regions.lookup "XX" = none
    ∧ LocAPI.is_metropolitan_area "XX" "Santos" = (false, none)
    ∧ LocAPI.is_metropolitan_area "SP" "Guarulhos"
        = (true, some "RMSP - Regiao Metropolitana de Sao Paulo")
    ∧ Massa.identificar_regiao_metro "Santos" "XX" = none
    ∧ Massa.identificar_regiao_metro "Guarulhos" "SP" = some "RM_SAOPAULO"
    ∧ ∃ p, p ∈ Massa.regioes_metropo ∧ p.1 = "RM_SAOPAULO" ∧ p.2.uf = "SP"
        ∧ ∃ m ∈ p.2.municipios,
            (strIn (pyUpper "Guarulhos") m || strIn m (pyUpper "Guarulhos")) = true := by
  refine ⟨rfl, (c5_is_member "XX" "Santos").1 rfl,
    ((c5_is_member "SP" "Guarulhos").2.1 _ rfl).trans (by decide),
    (c5_is_member "XX" "Santos").2.2.2 (by decide), rfl,
    (c5_is_member "SP" "Guarulhos").2.2.1 "RM_SAOPAULO" rfl⟩
